import Mathlib

/-!
Shallow embedding of the playback-session core of `src/server/server.js`
(Express + ZMQ audio streamer).

The server keeps global mutable state: `STATE = { playing, currentFile,
bytesSent }`, plus the globals `zmqSock` (the ZMQ publisher socket, or null)
and `playTimer` (the interval handle, or null).  The embedding models one
event-loop run: handlers (`/api/play`, `/api/pause`, `/api/stream-status`)
and interval-tick callbacks interleave as atomic steps, except that a tick
callback is split at its one suspension point, `await zmqSock.send(buf)`:
`tickFire` runs the callback up to and including initiating the send, and
`sendComplete` runs the continuation (`STATE.bytesSent += buf.length;
index += chunkSize`).  `tick = sendComplete ∘ tickFire` is the sequential
case in which each send completes before the next interval fires.

Samples are the decoded Float32 amplitudes; their values never matter to
the control logic, only their count (each is 4 bytes on the wire), so they
are modelled as `List Int`.  Broadcasts, socket closes and wire frames are
recorded in logs so that "exactly once" and ordering properties are
statable.
-/

namespace RadioTx

/-- `const chunkSize = 1024` in the play handler of server.js. -/
def chunkSize : Nat := 1024

/-- A websocket broadcast payload, as produced by `broadcast(...)` calls in
server.js:  `{type:'status', playing:true, currentFile}`,
`{type:'status', playing:false}`, `{type:'files-updated'}`. -/
inductive BEvent
  | statusPlaying (currentFile : String)
  | statusStopped
  | filesUpdated
  deriving DecidableEq

/-- One ZMQ message put on the wire by `zmqSock.send(buf)`: which socket it
was sent on, the cursor position it was sliced at, and the sample slice. -/
structure Frame where
  sockId : Nat
  startIdx : Nat
  data : List Int
  deriving DecidableEq

/-- A tick callback suspended at `await zmqSock.send(buf)`: the id of the
interval closure it belongs to and `buf.length` (4 bytes per sample). -/
structure Pending where
  timerId : Nat
  frameBytes : Nat
  deriving DecidableEq

/-- The interval closure created by `setInterval` in the play handler: its
captured `samples` array and its mutable local `index`.  `id` distinguishes
successive intervals (the JS timer handle). -/
structure TimerClosure where
  id : Nat
  samples : List Int
  index : Nat
  deriving DecidableEq

/-- The server's global mutable state: `STATE` (`playing`, `currentFile`,
`bytesSent`), `zmqSock`, `playTimer`, fresh-id counters for sockets and
timers, and logs of broadcasts, `close()` calls, wire frames (in send
order) and pending (suspended) tick continuations, oldest first. -/
structure ServerState where
  playing : Bool
  currentFile : Option String
  bytesSent : Nat
  zmqSock : Option Nat
  playTimer : Option TimerClosure
  nextSockId : Nat
  nextTimerId : Nat
  broadcasts : List BEvent
  closes : List Nat
  wire : List Frame
  pendings : List Pending
  deriving DecidableEq

/-- Boot state of the server process. -/
def initialState : ServerState :=
  { playing := false, currentFile := none, bytesSent := 0, zmqSock := none,
    playTimer := none, nextSockId := 0, nextTimerId := 0,
    broadcasts := [], closes := [], wire := [], pendings := [] }

/-- `cleanupStream(resetBytes = false)` in server.js:
`if (playTimer) { clearInterval(playTimer); playTimer = null; }`
`if (zmqSock) { try { zmqSock.close(); } catch {} zmqSock = null; }`
`if (resetBytes) STATE.bytesSent = 0;`
Each actual `close()` call is appended to the `closes` log. -/
def cleanupStream (resetBytes : Bool) (s : ServerState) : ServerState :=
  let s1 := match s.playTimer with
    | some _ => { s with playTimer := none }
    | none => s
  let s2 := match s1.zmqSock with
    | some k => { s1 with zmqSock := none, closes := s1.closes ++ [k] }
    | none => s1
  if resetBytes then { s2 with bytesSent := 0 } else s2

/-- What the filesystem + wav-decoder environment says about a fileId:
`decodable samples` when `fs.existsSync` holds and `wavDecoder.decode`
succeeds with first-channel `samples`; `corrupt` when the file exists but
reading/decoding throws. -/
inductive FileEntry
  | decodable (samples : List Int)
  | corrupt
  deriving DecidableEq

/-- HTTP outcome of the `/api/play` handler. -/
inductive PlayResult
  | badRequest
  | notFound
  | serverError
  | ok
  deriving DecidableEq

/-- The `/api/play` handler of server.js, lines 82-130.  `files` is the
upload-directory environment; `connectOk` says whether
`zmqSock.connect(...)` succeeds.  Order follows the source: fileId
falsy-check (400), existence check (404, before any state is touched),
`cleanupStream(true)`, decode (a throw is caught and becomes 500 with the
cleanup already done), socket creation and connect (a connect failure
leaves the fresh socket assigned to the global), then
`STATE.playing = true; STATE.currentFile = fileId; STATE.bytesSent = 0;`
the status broadcast, and finally `setInterval` creating the tick closure
with `index = 0`. -/
def play (files : String → Option FileEntry) (fileId : String)
    (connectOk : Bool) (s : ServerState) : ServerState × PlayResult :=
  if fileId = "" then (s, PlayResult.badRequest)
  else match files fileId with
  | none => (s, PlayResult.notFound)
  | some entry =>
    let s1 := cleanupStream true s
    match entry with
    | FileEntry.corrupt => (s1, PlayResult.serverError)
    | FileEntry.decodable samples =>
      let sock := s1.nextSockId
      let s2 := { s1 with zmqSock := some sock, nextSockId := sock + 1 }
      if connectOk then
        let s3 := { s2 with
          playing := true, currentFile := some fileId, bytesSent := 0,
          broadcasts := s2.broadcasts ++ [BEvent.statusPlaying fileId] }
        let t : TimerClosure := { id := s3.nextTimerId, samples := samples, index := 0 }
        ({ s3 with playTimer := some t, nextTimerId := s3.nextTimerId + 1 },
         PlayResult.ok)
      else (s2, PlayResult.serverError)

/-- The `/api/pause` handler, lines 133-138: `cleanupStream(false);
STATE.playing = false; broadcast({type:'status', playing:false});`. -/
def pause (s : ServerState) : ServerState :=
  let s1 := cleanupStream false s
  { s1 with playing := false, broadcasts := s1.broadcasts ++ [BEvent.statusStopped] }

/-- A JSON value as produced by the status endpoint. -/
inductive JVal
  | jbool (b : Bool)
  | jstr (v : String)
  | jnum (n : Nat)
  | jnull
  deriving DecidableEq

/-- The `/api/stream-status` handler, lines 141-147: the JSON object
(ordered key-value pairs) `{ playing: STATE.playing,
currentFileId: STATE.currentFile, bytesSent: STATE.bytesSent }`. -/
def streamStatus (s : ServerState) : List (String × JVal) :=
  [("playing", JVal.jbool s.playing),
   ("currentFileId", match s.currentFile with
     | some f => JVal.jstr f
     | none => JVal.jnull),
   ("bytesSent", JVal.jnum s.bytesSent)]

/-- One firing of the scheduled interval (if any), lines 111-123, run up to
its suspension point.  Guard is the source's
`if (!STATE.playing || index >= samples.length)`: the finish branch runs
`cleanupStream()` (resetBytes defaulting to false) and broadcasts
`{playing:false}` — note it does NOT assign `STATE.playing = false`.
Otherwise the callback slices
`samples.subarray(index, index + chunkSize)`, builds the buffer
(`byteLength = 4 * slice.length`) and initiates `zmqSock.send(buf)` on the
CURRENT global socket, suspending as a pending continuation.  (A fire with
`zmqSock === null` would throw in JS; it is unreachable while a timer is
scheduled and modelled as a no-op.) -/
def tickFire (s : ServerState) : ServerState :=
  match s.playTimer with
  | none => s
  | some t =>
    if s.playing = false ∨ t.samples.length ≤ t.index then
      let s1 := cleanupStream false s
      { s1 with broadcasts := s1.broadcasts ++ [BEvent.statusStopped] }
    else
      match s.zmqSock with
      | none => s
      | some sock =>
        let slice := (t.samples.drop t.index).take chunkSize
        { s with
          wire := s.wire ++ [{ sockId := sock, startIdx := t.index, data := slice }],
          pendings := s.pendings ++ [{ timerId := t.id, frameBytes := 4 * slice.length }] }

/-- Completion of the oldest in-flight send: the suspended callback resumes
and runs `STATE.bytesSent += buf.length; index += chunkSize`.  The global
`STATE.bytesSent` is incremented unconditionally (clearInterval does not
cancel a continuation already past its await); the `index` bump lands on
the closure's local, which is only observable if that closure is still the
scheduled interval. -/
def sendComplete (s : ServerState) : ServerState :=
  match s.pendings with
  | [] => s
  | p :: rest =>
    let s1 := { s with pendings := rest, bytesSent := s.bytesSent + p.frameBytes }
    match s1.playTimer with
    | none => s1
    | some t =>
      if t.id = p.timerId then
        { s1 with playTimer := some { t with index := t.index + chunkSize } }
      else s1

/-- A sequential tick: the interval fires and its send completes before
anything else runs (the intended schedule when sends are fast). -/
def tick (s : ServerState) : ServerState :=
  sendComplete (tickFire s)

/-- `n` sequential ticks. -/
def runTicks : Nat → ServerState → ServerState
  | 0, s => s
  | n + 1, s => tick (runTicks n s)

/-- Number of frames a session over `L` samples emits: `⌈L / chunkSize⌉`. -/
def numFrames (L : Nat) : Nat := (L + chunkSize - 1) / chunkSize

/-- The frames a session on socket `sock` has put on the wire after `k`
completed sequential ticks: the `i`-th frame starts at cursor
`chunkSize * i` and carries `samples.subarray`'s clipped slice. -/
def sessionWire (sock : Nat) (sm : List Int) (k : Nat) : List Frame :=
  (List.range k).map (fun i =>
    { sockId := sock, startIdx := chunkSize * i,
      data := (sm.drop (chunkSize * i)).take chunkSize })

/-- Canonical state of a playing session after `k` completed sequential
ticks: cursor at `chunkSize * k`, `bytesSent` at 4 bytes per sample sent,
the first `k` frames on the wire, no send in flight. -/
def seqState (fid : String) (sm : List Int) (sock tid ns nt : Nat)
    (b : List BEvent) (c : List Nat) (w : List Frame) (k : Nat) : ServerState :=
  { playing := true, currentFile := some fid,
    bytesSent := 4 * min (chunkSize * k) sm.length,
    zmqSock := some sock,
    playTimer := some { id := tid, samples := sm, index := chunkSize * k },
    nextSockId := ns, nextTimerId := nt,
    broadcasts := b, closes := c,
    wire := w ++ sessionWire sock sm k, pendings := [] }

/-- State after the finishing tick of a session that had completed `k`
frames: timer cleared, socket closed (appended to the close log), a final
`{playing:false}` broadcast — and `playing` left as it was (true). -/
def doneState (fid : String) (sm : List Int) (sock ns nt : Nat)
    (b : List BEvent) (c : List Nat) (w : List Frame) (k : Nat) : ServerState :=
  { playing := true, currentFile := some fid,
    bytesSent := 4 * min (chunkSize * k) sm.length,
    zmqSock := none, playTimer := none,
    nextSockId := ns, nextTimerId := nt,
    broadcasts := b ++ [BEvent.statusStopped], closes := c ++ [sock],
    wire := w ++ sessionWire sock sm k, pendings := [] }

theorem sessionWire_succ (sock : Nat) (sm : List Int) (k : Nat) :
    sessionWire sock sm (k + 1) = sessionWire sock sm k ++
      [{ sockId := sock, startIdx := chunkSize * k,
         data := (sm.drop (chunkSize * k)).take chunkSize }] := by
  simp [sessionWire, List.range_succ]

/-- `cleanupStream` in closed form. -/
theorem cleanupStream_eq (b : Bool) (s : ServerState) :
    cleanupStream b s =
      { s with
        playTimer := none, zmqSock := none,
        closes := s.closes ++ s.zmqSock.toList,
        bytesSent := if b then 0 else s.bytesSent } := by
  obtain ⟨pl, cf, bs, zs, pt, nsi, nti, br, cl, wi, pe⟩ := s
  cases b <;> cases pt <;> cases zs <;> simp [cleanupStream]

/-- A successful `play` from a quiescent state (no in-flight send) yields
the canonical fresh session. -/
theorem play_ok_eq (files : String → Option FileEntry) (fid : String)
    (sm : List Int) (s : ServerState) (h1 : fid ≠ "")
    (h2 : files fid = some (FileEntry.decodable sm)) (h3 : s.pendings = []) :
    play files fid true s =
      (seqState fid sm s.nextSockId s.nextTimerId (s.nextSockId + 1)
        (s.nextTimerId + 1)
        (s.broadcasts ++ [BEvent.statusPlaying fid])
        (s.closes ++ s.zmqSock.toList) s.wire 0, PlayResult.ok) := by
  unfold play
  rw [if_neg h1, h2]
  rw [cleanupStream_eq]
  simp [seqState, sessionWire, h3]

theorem tick_seq (fid : String) (sm : List Int) (sock tid ns nt : Nat)
    (b : List BEvent) (c : List Nat) (w : List Frame) (k : Nat)
    (h : chunkSize * k < sm.length) :
    tick (seqState fid sm sock tid ns nt b c w k) =
      seqState fid sm sock tid ns nt b c w (k + 1) := by
  unfold tick tickFire sendComplete seqState
  simp only [chunkSize] at h ⊢
  rw [if_neg (by simp only [Bool.true_eq_false, false_or, not_le]; omega :
    ¬ (true = false ∨ sm.length ≤ 1024 * k))]
  simp only [List.nil_append]
  rw [if_pos True.intro, sessionWire_succ]
  simp only [chunkSize]
  simp [ServerState.mk.injEq, List.length_take, List.length_drop, List.append_assoc]
  omega

theorem tick_seq_done (fid : String) (sm : List Int) (sock tid ns nt : Nat)
    (b : List BEvent) (c : List Nat) (w : List Frame) (k : Nat)
    (h : sm.length ≤ chunkSize * k) :
    tick (seqState fid sm sock tid ns nt b c w k) =
      doneState fid sm sock ns nt b c w k := by
  unfold tick tickFire sendComplete seqState doneState
  simp only [chunkSize] at h ⊢
  rw [if_pos (Or.inr h)]
  rw [cleanupStream_eq]
  simp

theorem tick_done (fid : String) (sm : List Int) (sock ns nt : Nat)
    (b : List BEvent) (c : List Nat) (w : List Frame) (k : Nat) :
    tick (doneState fid sm sock ns nt b c w k) =
      doneState fid sm sock ns nt b c w k := by
  unfold tick tickFire sendComplete doneState
  simp

/-- Sequential-run characterization while the session is still playing:
after `k ≤ numFrames` ticks the state is the canonical `seqState k`. -/
theorem runTicks_seq (fid : String) (sm : List Int) (sock tid ns nt : Nat)
    (b : List BEvent) (c : List Nat) (w : List Frame) (k : Nat)
    (hk : k ≤ numFrames sm.length) :
    runTicks k (seqState fid sm sock tid ns nt b c w 0) =
      seqState fid sm sock tid ns nt b c w k := by
  induction k with
  | zero => rfl
  | succ n ih =>
    have hn : n ≤ numFrames sm.length := Nat.le_of_succ_le hk
    have hlt : chunkSize * n < sm.length := by
      simp only [numFrames, chunkSize] at hk ⊢
      omega
    rw [runTicks, ih hn, tick_seq _ _ _ _ _ _ _ _ _ _ hlt]

/-- Sequential-run characterization past the finishing tick: the state is
stably `doneState (numFrames sm.length)`. -/
theorem runTicks_done (fid : String) (sm : List Int) (sock tid ns nt : Nat)
    (b : List BEvent) (c : List Nat) (w : List Frame) (k : Nat)
    (hk : numFrames sm.length < k) :
    runTicks k (seqState fid sm sock tid ns nt b c w 0) =
      doneState fid sm sock ns nt b c w (numFrames sm.length) := by
  obtain ⟨j, rfl⟩ : ∃ j, k = numFrames sm.length + 1 + j :=
    ⟨k - numFrames sm.length - 1, by omega⟩
  induction j with
  | zero =>
    rw [runTicks, runTicks_seq _ _ _ _ _ _ _ _ _ _ (Nat.le_refl _)]
    exact tick_seq_done _ _ _ _ _ _ _ _ _ _ (by simp only [numFrames, chunkSize]; omega)
  | succ m ih =>
    have : numFrames sm.length + 1 + (m + 1) = (numFrames sm.length + 1 + m) + 1 := by omega
    rw [this, runTicks, ih (by omega)]
    exact tick_done _ _ _ _ _ _ _ _ _

/-- Upload directory holding one decodable 3-sample file. -/
def files3 : String → Option FileEntry := fun f =>
  if f = "a.wav" then some (FileEntry.decodable [1, 2, 3]) else none

/-- Upload directory holding two decodable 1-sample files. -/
def filesAB : String → Option FileEntry := fun f =>
  if f = "a.wav" then some (FileEntry.decodable [5])
  else if f = "b.wav" then some (FileEntry.decodable [6]) else none

/-- Upload directory holding a decodable file and a corrupt one. -/
def filesMix : String → Option FileEntry := fun f =>
  if f = "good.wav" then some (FileEntry.decodable [1, 2])
  else if f = "bad.wav" then some FileEntry.corrupt else none

/-- Upload directory holding a 2500-sample file (the spec's worked
example for chunking). -/
def files2500 : String → Option FileEntry := fun f =>
  if f = "big.wav" then some (FileEntry.decodable (List.replicate 2500 0)) else none

/-- Start/start race trace: play a.wav, its first tick fires and suspends
at `await zmqSock.send`, then play b.wav replaces the session while that
send is still in flight. -/
def raceState : ServerState :=
  (play filesAB "b.wav" true (tickFire (play filesAB "a.wav" true initialState).1)).1

/-- Two interval firings with no send completion in between: the schedule
`setInterval` actually produces when a send is slower than 10 ms. -/
def doubleFire : ServerState :=
  tickFire (tickFire (play filesAB "a.wav" true initialState).1)

theorem range_map_getLast {α : Type} (f : Nat → α) (n : Nat) :
    ((List.range (n + 1)).map f).getLast? = some (f n) := by
  rw [List.range_succ, List.map_append]
  simp

theorem sessionWire_startIdx_pairwise (sock : Nat) (sm : List Int) (m : Nat) :
    ((sessionWire sock sm m).map Frame.startIdx).Pairwise (· < ·) := by
  unfold sessionWire
  rw [List.map_map]
  have hc : (Frame.startIdx ∘ fun i =>
      Frame.mk sock (chunkSize * i) ((sm.drop (chunkSize * i)).take chunkSize)) =
      fun i => chunkSize * i := rfl
  rw [hc]
  exact (List.pairwise_lt_range m).map _ (by intro a b hab; simp [chunkSize]; omega)

/-- C7 (confirmed): `start` with an unknown source reference returns
NotFound (`404 file not found`, issued before `cleanupStream` runs),
returns the state completely unchanged — playing flag, current file,
bytesSent, timer, channel, logs — and emits no broadcast. -/
theorem c7_unknown_ref_untouched (files : String → Option FileEntry)
    (fid : String) (connectOk : Bool) (s : ServerState)
    (h1 : fid ≠ "") (h2 : files fid = none) :
    play files fid connectOk s = (s, PlayResult.notFound) := by
  unfold play
  rw [if_neg h1, h2]

/-- Witness for C7: an unknown ref rejected over an active session leaves
that session's state intact. -/
theorem c7_unknown_ref_untouched_witness :
    play files3 "missing.wav" true (play files3 "a.wav" true initialState).1
      = ((play files3 "a.wav" true initialState).1, PlayResult.notFound) :=
  c7_unknown_ref_untouched files3 "missing.wav" true
    (play files3 "a.wav" true initialState).1 (by decide) (by decide)

/-- C6 counterexample: two consecutive stops from the idle boot state
produce TWO `{playing:false}` broadcasts, not one — `/api/pause` always
broadcasts, even when no session is active, refuting the claim's
"no-op with no broadcast". -/
theorem c6_counterexample :
    (pause (pause initialState)).broadcasts
        = [BEvent.statusStopped, BEvent.statusStopped] ∧
    (pause (pause initialState)).broadcasts.length ≠ 1 := by decide

/-- C6 amended: `stop` is idempotent on session state — a second
consecutive `stop` changes nothing except appending one more
`{playing:false}` broadcast (one broadcast per call, so two calls give
two, not one) — and after any `stop` the state is Idle: playing false,
timer cleared, channel closed. -/
theorem c6_amended_stop_idempotent (s : ServerState) :
    pause (pause s)
        = { pause s with broadcasts := (pause s).broadcasts ++ [BEvent.statusStopped] } ∧
    (pause s).playing = false ∧ (pause s).playTimer = none ∧
    (pause s).zmqSock = none := by
  unfold pause
  rw [cleanupStream_eq, cleanupStream_eq]
  simp

/-- C9 counterexample: the status endpoint's JSON keys are
`playing, currentFileId, bytesSent` — not the claimed
`playing, currentFile, bytesSent` shape. -/
theorem c9_counterexample :
    (streamStatus initialState).map Prod.fst ≠ ["playing", "currentFile", "bytesSent"] ∧
    (streamStatus initialState).map Prod.fst = ["playing", "currentFileId", "bytesSent"] := by
  decide

/-- C9 amended: `status()` is a pure read of exactly the three session
fields (it depends on nothing else in the state), returning the object
with keys `playing`, `currentFileId` (not `currentFile`), `bytesSent`,
whose values mirror `STATE`. -/
theorem c9_amended_status_shape (s : ServerState) :
    (streamStatus s).map Prod.fst = ["playing", "currentFileId", "bytesSent"] ∧
    (streamStatus s).lookup "playing" = some (JVal.jbool s.playing) ∧
    (streamStatus s).lookup "bytesSent" = some (JVal.jnum s.bytesSent) ∧
    streamStatus s = streamStatus
      { initialState with
        playing := s.playing, currentFile := s.currentFile,
        bytesSent := s.bytesSent } := by
  refine ⟨rfl, ?_, ?_, rfl⟩ <;> simp [streamStatus, List.lookup]

/-- C5 (code bug): natural completion of a 3-sample stream (2 sequential
ticks: one frame, then the finishing tick).  The finishing tick clears the
timer, closes the channel exactly once, and broadcasts `{playing:false}` —
but never assigns `STATE.playing = false`, so the playback state does NOT
transition to Idle: `/api/stream-status` keeps reporting
`playing: true` (with 12 bytes sent) although no loop is running. -/
theorem c5_completion_leaves_playing_true :
    (runTicks 2 (play files3 "a.wav" true initialState).1).playTimer = none ∧
    (runTicks 2 (play files3 "a.wav" true initialState).1).zmqSock = none ∧
    (runTicks 2 (play files3 "a.wav" true initialState).1).closes = [0] ∧
    (runTicks 2 (play files3 "a.wav" true initialState).1).broadcasts
        = [BEvent.statusPlaying "a.wav", BEvent.statusStopped] ∧
    (runTicks 2 (play files3 "a.wav" true initialState).1).playing = true ∧
    streamStatus (runTicks 2 (play files3 "a.wav" true initialState).1)
        = [("playing", JVal.jbool true), ("currentFileId", JVal.jstr "a.wav"),
           ("bytesSent", JVal.jnum 12)] := by decide

/-- C2 counterexample: there is no sessionId/generation re-check.  In the
`raceState` trace, session a.wav's tick is suspended at its send when
session b.wav replaces it (b's timer has id 1, bytesSent reset to 0, the
stale pending continuation carries timer id 0).  Resuming that superseded
tick is NOT a no-op: it mutates shared state, bumping the new session's
`STATE.bytesSent` from 0 to 4 even though the new session has sent nothing
(the only wire frame is on old socket 0). -/
theorem c2_counterexample :
    raceState.bytesSent = 0 ∧
    raceState.pendings = [{ timerId := 0, frameBytes := 4 }] ∧
    raceState.playTimer.map TimerClosure.id = some 1 ∧
    (sendComplete raceState).bytesSent = 4 ∧
    (sendComplete raceState).wire.map Frame.sockId = [0] := by decide

/-- C2 amended: ticks carry no generation token.  What the code actually
guarantees: (a) a cleared interval never begins a new tick (`tickFire` is
a no-op once `playTimer` is null), so a superseded loop issues no further
frames; but (b) a tick already suspended at its send when superseded
resumes and unconditionally adds its frame's bytes to the (new session's)
shared `STATE.bytesSent` — it touches no channel and emits no frame, and
its cursor bump lands on the dead closure, but shared state is mutated. -/
theorem c2_amended_no_generation_check (s sp : ServerState) (p : Pending)
    (rest : List Pending) (hs : s.playTimer = none)
    (hp : sp.pendings = p :: rest)
    (hid : sp.playTimer.map TimerClosure.id ≠ some p.timerId) :
    tickFire s = s ∧
    sendComplete sp
        = { sp with pendings := rest, bytesSent := sp.bytesSent + p.frameBytes } := by
  constructor
  · unfold tickFire
    rw [hs]
  · unfold sendComplete
    rw [hp]
    cases hpt : sp.playTimer with
    | none => simp [hpt]
    | some t =>
      simp only [hpt]
      rw [if_neg (by rw [hpt] at hid; simp at hid; exact hid)]

/-- Witness for C2 amended: the cleared-timer no-op on the post-stop
state, and the stale-send resumption on the race trace. -/
theorem c2_amended_no_generation_check_witness :
    tickFire (pause initialState) = pause initialState ∧
    sendComplete raceState
        = { raceState with pendings := [], bytesSent := raceState.bytesSent + 4 } :=
  c2_amended_no_generation_check (pause initialState) raceState
    { timerId := 0, frameBytes := 4 } [] (by decide) (by decide) (by decide)

/-- C3 counterexample: the emission loop is purely time-driven.  If the
interval fires again while the previous frame's send is still pending
(`pendings ≠ []` after the first firing), the callback re-reads the
not-yet-advanced cursor and issues the SAME frame again: the wire carries
cursor positions `[0, 0]`, which is not strictly increasing. -/
theorem c3_counterexample :
    (tickFire (play filesAB "a.wav" true initialState).1).pendings ≠ [] ∧
    doubleFire.wire.map Frame.startIdx = [0, 0] ∧
    ¬ (doubleFire.wire.map Frame.startIdx).Pairwise (· < ·) := by decide

/-- C8 counterexample: after the single frame of a 1-sample session, the
loop's cursor is `index = 1024`, which exceeds `samples.length = 1`
(`index += chunkSize` is not clipped to the sequence end). -/
theorem c8_counterexample :
    (runTicks 1 (play filesAB "a.wav" true initialState).1).playTimer.map
        (fun t => (t.index, t.samples.length)) = some (1024, 1) := by decide

/-- C1 (confirmed): `start(B)` while A's loop is still running (any
`k ≤ numFrames` completed ticks) leaves exactly one Playing session,
bound to B: the resulting state is precisely the canonical fresh session
for B (timer id 1 at cursor 0, socket 1, `playing` with
`currentFile = B`), and A's socket 0 appears in the close log exactly
once (`closes = [0]`), recorded by `cleanupStream(true)` inside the play
handler before socket 1 is opened.  The model's single
`playTimer`/`zmqSock` slots mirror the source's single globals, so at
most one session can exist at any instant; this theorem checks that the
replacement path maintains it and releases A exactly once. -/
theorem c1_at_most_one_session (files : String → Option FileEntry)
    (fA fB : String) (smA smB : List Int) (k : Nat)
    (hA : fA ≠ "") (hB : fB ≠ "")
    (hfA : files fA = some (FileEntry.decodable smA))
    (hfB : files fB = some (FileEntry.decodable smB))
    (hk : k ≤ numFrames smA.length) :
    play files fB true (runTicks k (play files fA true initialState).1)
      = (seqState fB smB 1 1 2 2
          [BEvent.statusPlaying fA, BEvent.statusPlaying fB] [0]
          (sessionWire 0 smA k) 0, PlayResult.ok) := by
  have h1 : (play files fA true initialState).1
      = seqState fA smA 0 0 1 1 [BEvent.statusPlaying fA] [] [] 0 := by
    rw [play_ok_eq files fA smA initialState hA hfA rfl]
    rfl
  have h2 : runTicks k (play files fA true initialState).1
      = seqState fA smA 0 0 1 1 [BEvent.statusPlaying fA] [] [] k := by
    rw [h1]
    exact runTicks_seq fA smA 0 0 1 1 [BEvent.statusPlaying fA] [] [] k hk
  rw [h2, play_ok_eq files fB smB _ hB hfB rfl]
  rfl

/-- Witness for C1: a.wav replaced by b.wav after one completed tick. -/
theorem c1_at_most_one_session_witness :
    play filesAB "b.wav" true (runTicks 1 (play filesAB "a.wav" true initialState).1)
      = (seqState "b.wav" [6] 1 1 2 2
          [BEvent.statusPlaying "a.wav", BEvent.statusPlaying "b.wav"] [0]
          (sessionWire 0 [5] 1) 0, PlayResult.ok) :=
  c1_at_most_one_session filesAB "a.wav" "b.wav" [5] [6] 1 (by decide) (by decide)
    (by decide) (by decide) (by decide)

/-- C3 amended: the interval callback does not await the previous send —
it is purely time-driven (see the counterexample) — but in the sequential
schedule where every send completes before the next interval fires
(`runTicks`, the intended fast-send regime) frames for a session are
emitted in strictly increasing cursor order and no send is left in
flight after each tick. -/
theorem c3_amended_sequential_order (files : String → Option FileEntry)
    (fid : String) (sm : List Int) (k : Nat) (h1 : fid ≠ "")
    (h2 : files fid = some (FileEntry.decodable sm)) :
    ((runTicks k (play files fid true initialState).1).wire.map
        Frame.startIdx).Pairwise (· < ·) ∧
    (runTicks k (play files fid true initialState).1).pendings = [] := by
  have h0 : (play files fid true initialState).1
      = seqState fid sm 0 0 1 1 [BEvent.statusPlaying fid] [] [] 0 := by
    rw [play_ok_eq files fid sm initialState h1 h2 rfl]
    rfl
  by_cases hk : k ≤ numFrames sm.length
  · rw [h0, runTicks_seq fid sm 0 0 1 1 _ [] [] k hk]
    refine ⟨?_, rfl⟩
    simp only [seqState, List.nil_append]
    exact sessionWire_startIdx_pairwise 0 sm k
  · rw [h0, runTicks_done fid sm 0 0 1 1 _ [] [] k (by omega)]
    refine ⟨?_, rfl⟩
    simp only [doneState, List.nil_append]
    exact sessionWire_startIdx_pairwise 0 sm (numFrames sm.length)

/-- Witness for C3 amended: two sequential ticks of the 3-sample file. -/
theorem c3_amended_sequential_order_witness :
    ((runTicks 2 (play files3 "a.wav" true initialState).1).wire.map
        Frame.startIdx).Pairwise (· < ·) ∧
    (runTicks 2 (play files3 "a.wav" true initialState).1).pendings = [] :=
  c3_amended_sequential_order files3 "a.wav" [1, 2, 3] 2 (by decide) (by decide)

/-- C8 amended: within a sequential session the cursor is
`chunkSize * k` after `k` ticks while the loop is alive (hence
monotonically non-decreasing), and it is bounded by
`samples.length + chunkSize - 1` — it CAN exceed `samples.length`
(counterexample), by strictly less than one chunk. -/
theorem c8_amended_cursor_bound (files : String → Option FileEntry)
    (fid : String) (sm : List Int) (k : Nat) (h1 : fid ≠ "")
    (h2 : files fid = some (FileEntry.decodable sm)) :
    (runTicks k (play files fid true initialState).1).playTimer.map TimerClosure.index
        = (if k ≤ numFrames sm.length then some (chunkSize * k) else none) ∧
    chunkSize * min k (numFrames sm.length) < sm.length + chunkSize := by
  have h0 : (play files fid true initialState).1
      = seqState fid sm 0 0 1 1 [BEvent.statusPlaying fid] [] [] 0 := by
    rw [play_ok_eq files fid sm initialState h1 h2 rfl]
    rfl
  constructor
  · by_cases hk : k ≤ numFrames sm.length
    · rw [h0, runTicks_seq fid sm 0 0 1 1 _ [] [] k hk, if_pos hk]
      rfl
    · rw [h0, runTicks_done fid sm 0 0 1 1 _ [] [] k (by omega), if_neg hk]
      rfl
  · simp only [numFrames, chunkSize]
    omega

/-- Witness for C8 amended: one tick of the 3-sample file puts the cursor
at 1024, within the amended bound. -/
theorem c8_amended_cursor_bound_witness :
    (runTicks 1 (play files3 "a.wav" true initialState).1).playTimer.map TimerClosure.index
        = some 1024 ∧
    1024 * min 1 (numFrames 3) < 3 + 1024 :=
  c8_amended_cursor_bound files3 "a.wav" [1, 2, 3] 1 (by decide) (by decide)

/-- C4 counterexample: for the spec's own worked example, 2500 samples at
chunkSize 1024, the code's `bytesSent` progression is
`[4096, 8192, 10000]` (the last frame has 452 samples = 1808 bytes), not
the claimed `[4096, 8192, 9904]`. -/
theorem c4_counterexample :
    [(runTicks 1 (play files2500 "big.wav" true initialState).1).bytesSent,
     (runTicks 2 (play files2500 "big.wav" true initialState).1).bytesSent,
     (runTicks 3 (play files2500 "big.wav" true initialState).1).bytesSent]
        = [4096, 8192, 10000] ∧
    [(runTicks 1 (play files2500 "big.wav" true initialState).1).bytesSent,
     (runTicks 2 (play files2500 "big.wav" true initialState).1).bytesSent,
     (runTicks 3 (play files2500 "big.wav" true initialState).1).bytesSent]
        ≠ [4096, 8192, 9904] := by
  have h0 : (play files2500 "big.wav" true initialState).1
      = seqState "big.wav" (List.replicate 2500 0) 0 0 1 1
          [BEvent.statusPlaying "big.wav"] [] [] 0 := by
    rw [play_ok_eq files2500 "big.wav" (List.replicate 2500 0) initialState
      (by decide) rfl rfl]
    rfl
  have hb : ∀ m, m ≤ 3 →
      (runTicks m (play files2500 "big.wav" true initialState).1).bytesSent
        = 4 * min (1024 * m) 2500 := by
    intro m hm
    rw [h0, runTicks_seq _ _ _ _ _ _ _ _ _ m
      (by simp only [List.length_replicate, numFrames, chunkSize]; omega)]
    simp only [seqState, chunkSize, List.length_replicate]
  rw [hb 1 (by omega), hb 2 (by omega), hb 3 (by omega)]
  exact ⟨by decide, by decide⟩

/-- C4 amended: for every sample sequence of length `L` with
`chunkSize = 1024`, the completed sequential run emits exactly
`⌈L/1024⌉` frames, the `i`-th frame being the contiguous slice
`samples[1024*i : 1024*(i+1)]`, the last frame (when `L > 0`) having
length `L mod 1024` (or 1024 on an exact multiple), and `bytesSent`
after the `k`-th frame being 4 bytes per cumulative sample,
`4 * min (1024*k) L` — for `L = 2500` the progression is
`[4096, 8192, 10000]`, not the claimed 9904. -/
theorem c4_amended_chunking (files : String → Option FileEntry)
    (fid : String) (sm : List Int) (k : Nat) (h1 : fid ≠ "")
    (h2 : files fid = some (FileEntry.decodable sm))
    (hk : k ≤ numFrames sm.length) :
    (runTicks k (play files fid true initialState).1).bytesSent
        = 4 * min (chunkSize * k) sm.length ∧
    (runTicks (numFrames sm.length + 1) (play files fid true initialState).1).wire.map
        Frame.data
        = (List.range (numFrames sm.length)).map
            (fun i => (sm.drop (chunkSize * i)).take chunkSize) ∧
    (runTicks (numFrames sm.length + 1) (play files fid true initialState).1).wire.length
        = numFrames sm.length ∧
    (sm.length ≠ 0 →
      ((runTicks (numFrames sm.length + 1)
          (play files fid true initialState).1).wire.getLast?).map
            (fun f => f.data.length)
        = some (if sm.length % chunkSize = 0 then chunkSize
                else sm.length % chunkSize)) := by
  have h0 : (play files fid true initialState).1
      = seqState fid sm 0 0 1 1 [BEvent.statusPlaying fid] [] [] 0 := by
    rw [play_ok_eq files fid sm initialState h1 h2 rfl]
    rfl
  have hdone : runTicks (numFrames sm.length + 1) (play files fid true initialState).1
      = doneState fid sm 0 1 1 [BEvent.statusPlaying fid] [] []
          (numFrames sm.length) := by
    rw [h0]
    exact runTicks_done fid sm 0 0 1 1 _ [] [] _ (by omega)
  refine ⟨?_, ?_, ?_, ?_⟩
  · rw [h0, runTicks_seq fid sm 0 0 1 1 _ [] [] k hk]
    rfl
  · rw [hdone]
    simp [doneState, sessionWire, List.map_map, Function.comp]
  · rw [hdone]
    simp [doneState, sessionWire]
  · intro hL
    rw [hdone]
    obtain ⟨m, hm⟩ : ∃ m, numFrames sm.length = m + 1 := by
      refine ⟨numFrames sm.length - 1, ?_⟩
      simp only [numFrames, chunkSize]
      omega
    rw [hm]
    simp only [doneState, List.nil_append, sessionWire, range_map_getLast,
      Option.map_some', Option.some.injEq, List.length_take, List.length_drop]
    simp only [numFrames, chunkSize] at hm
    simp only [chunkSize]
    split <;> omega

/-- Witness for C4 amended: the 3-sample file gives one 3-sample frame of
12 bytes. -/
theorem c4_amended_chunking_witness :
    (runTicks 1 (play files3 "a.wav" true initialState).1).bytesSent = 4 * min 1024 3 ∧
    (runTicks 2 (play files3 "a.wav" true initialState).1).wire.map Frame.data
        = (List.range 1).map
            (fun i => (([1, 2, 3] : List Int).drop (1024 * i)).take 1024) ∧
    (runTicks 2 (play files3 "a.wav" true initialState).1).wire.length = 1 ∧
    ((3 : Nat) ≠ 0 →
      ((runTicks 2 (play files3 "a.wav" true initialState).1).wire.getLast?).map
          (fun f => f.data.length) = some 3) :=
  c4_amended_chunking files3 "a.wav" [1, 2, 3] 1 (by decide) (by decide) (by decide)

/-- C10 (confirmed): when `start` passes the existence check but then
fails — the decode throws (`corrupt`), or `zmqSock.connect` fails — the
handler answers 500 AFTER the previous session was already torn down by
`cleanupStream(true)`: timer cleared, the old channel closed (appended
once to the close log), `bytesSent` reset to 0; but `STATE.playing` and
`STATE.currentFile` keep their prior values and nothing is broadcast, so
over an active session the status endpoint keeps reporting
`playing: true` with no emission loop running. -/
theorem c10_failed_start_after_teardown (files : String → Option FileEntry)
    (fid : String) (connectOk : Bool) (entry : FileEntry) (s : ServerState)
    (h1 : fid ≠ "") (h2 : files fid = some entry)
    (h3 : entry = FileEntry.corrupt ∨ connectOk = false) :
    (play files fid connectOk s).2 = PlayResult.serverError ∧
    (play files fid connectOk s).1.playing = s.playing ∧
    (play files fid connectOk s).1.currentFile = s.currentFile ∧
    (play files fid connectOk s).1.bytesSent = 0 ∧
    (play files fid connectOk s).1.playTimer = none ∧
    (play files fid connectOk s).1.broadcasts = s.broadcasts ∧
    (play files fid connectOk s).1.closes = s.closes ++ s.zmqSock.toList := by
  unfold play
  rw [if_neg h1, h2]
  rcases h3 with h3 | h3
  · subst h3
    simp [cleanupStream_eq]
  · subst h3
    cases entry with
    | corrupt => simp [cleanupStream_eq]
    | decodable sm => simp [cleanupStream_eq]

/-- Witness for C10: a corrupt file selected over an active session: 500,
loop gone, old channel closed, bytes reset, but still `playing`. -/
theorem c10_failed_start_after_teardown_witness :
    (play filesMix "bad.wav" true (play filesMix "good.wav" true initialState).1).2
        = PlayResult.serverError ∧
    (play filesMix "bad.wav" true (play filesMix "good.wav" true initialState).1).1.playing
        = true ∧
    (play filesMix "bad.wav" true (play filesMix "good.wav" true initialState).1).1.currentFile
        = some "good.wav" ∧
    (play filesMix "bad.wav" true (play filesMix "good.wav" true initialState).1).1.bytesSent
        = 0 ∧
    (play filesMix "bad.wav" true (play filesMix "good.wav" true initialState).1).1.playTimer
        = none ∧
    (play filesMix "bad.wav" true (play filesMix "good.wav" true initialState).1).1.broadcasts
        = [BEvent.statusPlaying "good.wav"] ∧
    (play filesMix "bad.wav" true (play filesMix "good.wav" true initialState).1).1.closes
        = [] ++ [0] :=
  c10_failed_start_after_teardown filesMix "bad.wav" true FileEntry.corrupt
    (play filesMix "good.wav" true initialState).1 (by decide) (by decide)
    (Or.inl rfl)

end RadioTx
